import Mathlib

/-!
Verification of the session-command workflow engine
(packages/driver/src/cy/commands/sessions/index.ts).

The development embeds the registry logic, the create/restore/validate/recreate
workflows, the validation-outcome reduction and the queue-failure interceptor
of the source file as executable Lean definitions, and proves the documented
properties about them. Line numbers in comments refer to that source file.
-/

set_option autoImplicit false

namespace Sessions

/-- JavaScript values, modelled just finely enough to express the strict
equality tests the source performs (`val === false`, `returnVal === undefined`,
`Cypress.isCy(returnVal)`). -/
inductive JsVal where
  | undef
  | nullv
  | boolean (b : Bool)
  | num (n : Int)
  | str (s : String)
  /-- a cy chainer, the value for which Cypress.isCy returns true -/
  | cyChainer
  | objOther
  deriving DecidableEq, Repr

/-- The workflow steps validateSession is invoked with (type SESSION_STEPS at
line 44, restricted to the three values actually passed). -/
inductive SessionStep where
  | create
  | restore
  | recreate
  deriving DecidableEq, Repr

namespace statusMap

/-- statusMap.inProgress (lines 46-57). -/
def inProgress : SessionStep → String
  | .create => "creating"
  | .restore => "restoring"
  | .recreate => "recreating"

/-- statusMap.stepName (lines 58-71). -/
def stepName : SessionStep → String
  | .create => "Create new session"
  | .restore => "Restore saved session"
  | .recreate => "Recreate session"

/-- statusMap.complete (lines 72-83). -/
def complete : SessionStep → String
  | .create => "created"
  | .restore => "restored"
  | .recreate => "recreated"

end statusMap

/-- The reason string attached to a sessions.validate_callback_false error
(lines 426, 435 and 449 of the source). -/
inductive FalseReason where
  | promiseResolvedFalse
  | promiseRejected
  | callbackYieldedFalse
  deriving DecidableEq, Repr

/-- Classification of a validation failure: either an ordinary error object is
propagated (thrown command error, queue failure, Error-instance rejection), or
the dedicated validate_callback_false error is synthesised with a reason. -/
inductive ValidationFailureKind where
  | erroredCmd
  | callbackFalse (reason : FalseReason)
  deriving DecidableEq, Repr

/-- How the validation routine finished once its queued commands ran: either it
returned a plain value, or it returned a promise-like value that later resolved
or rejected (lines 419 and 442 distinguish these shapes). -/
inductive ValidateReturn where
  | value (v : JsVal)
  | promiseLike (resolved : Bool) (v : JsVal) (isErrorInstance : Bool)
  deriving DecidableEq, Repr

/-- What happened while the queued validation commands executed: either some
command failed (firing the installed onQueueFailed handler, which also covers a
synchronous throw of the routine inside the cy.then at line 392), or everything
completed and the routine produced a return value. -/
inductive ValidationRunCase where
  | queueFails
  | completes (rv : ValidateReturn)
  deriving DecidableEq, Repr

/-- What validateSession reduces to for the calling workflow: it either hands
back an isValid boolean, or throws and thereby fails the test. -/
inductive ValidateReduction where
  | returns (isValid : Bool)
  | throws
  deriving DecidableEq, Repr

/-- The observable result of the validateSession block: the reduction handed to
the workflow, the final installation state of the onQueueFailed interceptor, a
flag recording whether a validation step was queued at all, and the failure
classification when validation did not pass. -/
structure ValidateResult where
  reduction : ValidateReduction
  handlerInstalled : Bool
  stepQueued : Bool
  failure : Option ValidationFailureKind
  deriving DecidableEq, Repr

/-- failValidation (lines 403-416): for the restore step the error is enhanced
(enhanceErr, which has already uninstalled the interceptor at line 309) and
not-valid is returned so the workflow moves to the recreate flow; for the
create and recreate steps the enhanced error is thrown and fails the test. -/
def failValidation (step : SessionStep) (kind : ValidationFailureKind) : ValidateResult :=
  if step = SessionStep.restore then
    ⟨ValidateReduction.returns false, false, true, some kind⟩
  else
    ⟨ValidateReduction.throws, false, true, some kind⟩

/-- validateSession (lines 285-459) reduced to its observable behaviour.

With no validate routine it returns valid immediately and queues nothing
(lines 286-290). Otherwise a queue-failure interceptor is installed
(line 351); if a validation command fails, the handler converts non-object
throwables to errors and calls enhanceErr which uninstalls the interceptor
(line 309); for the restore step the error is marked recovered and the queue
cursor is moved to the resume step, which observes caughtCommandErr and yields
not-valid (lines 399-401), while for other steps the error is rethrown and the
test fails. If the validation commands complete, the resume step
_commandToRunAfterValidation (lines 396-454) first uninstalls the interceptor
(line 397) and then inspects the returned value: a promise-like value is
awaited, resolution to exactly false raises the validate_callback_false error
(line 426), a rejection is passed on as-is when it is an Error instance and is
otherwise wrapped in validate_callback_false (lines 431-439); an undefined or
chainer return value makes the step inspect the subject yielded by the
previous command and raise validate_callback_false exactly when that subject
is exactly false (lines 442-451); any other value falls through to valid
(line 453). -/
def validateSession (hasValidate : Bool) (step : SessionStep)
    (run : ValidationRunCase) (prevSubject : JsVal) : ValidateResult :=
  if !hasValidate then
    ⟨ValidateReduction.returns true, false, false, none⟩
  else
    match run with
    | ValidationRunCase.queueFails =>
      if step = SessionStep.restore then
        ⟨ValidateReduction.returns false, false, true, some ValidationFailureKind.erroredCmd⟩
      else
        ⟨ValidateReduction.throws, false, true, some ValidationFailureKind.erroredCmd⟩
    | ValidationRunCase.completes rv =>
      match rv with
      | ValidateReturn.promiseLike true v _ =>
        if v = JsVal.boolean false then
          failValidation step (ValidationFailureKind.callbackFalse FalseReason.promiseResolvedFalse)
        else
          ⟨ValidateReduction.returns true, false, true, none⟩
      | ValidateReturn.promiseLike false _ isErrorInstance =>
        if isErrorInstance then
          failValidation step ValidationFailureKind.erroredCmd
        else
          failValidation step (ValidationFailureKind.callbackFalse FalseReason.promiseRejected)
      | ValidateReturn.value v =>
        if (v = JsVal.undef ∨ v = JsVal.cyChainer) ∧ prevSubject = JsVal.boolean false then
          failValidation step (ValidationFailureKind.callbackFalse FalseReason.callbackYieldedFalse)
        else
          ⟨ValidateReduction.returns true, false, true, none⟩

/-- Derived predicate: the run of the validation routine signals failure, by a
queue failure, a promise resolving to exactly false, a rejection, or an
undefined-or-chainer return over a previous subject of exactly false. -/
def validationSignalsFailure : ValidationRunCase → JsVal → Bool
  | ValidationRunCase.queueFails, _ => true
  | ValidationRunCase.completes (ValidateReturn.promiseLike true v _), _ =>
      v == JsVal.boolean false
  | ValidationRunCase.completes (ValidateReturn.promiseLike false _ _), _ => true
  | ValidationRunCase.completes (ValidateReturn.value v), prev =>
      (v == JsVal.undef || v == JsVal.cyChainer) && prev == JsVal.boolean false

theorem validateSession_pass (hasValidate : Bool) (step : SessionStep)
    (run : ValidationRunCase) (prev : JsVal)
    (h : validationSignalsFailure run prev = false) :
    validateSession hasValidate step run prev =
      ⟨ValidateReduction.returns true, false, hasValidate, none⟩ := by
  rcases run with _ | rv
  · simp [validationSignalsFailure] at h
  · rcases rv with v | ⟨res, v, isErr⟩
    · cases hasValidate <;>
        simp_all [validateSession, validationSignalsFailure, failValidation]
    · cases res <;> cases hasValidate <;>
        simp_all [validateSession, validationSignalsFailure, failValidation]

theorem validateSession_fail_restore (run : ValidationRunCase) (prev : JsVal)
    (h : validationSignalsFailure run prev = true) :
    ∃ k, validateSession true SessionStep.restore run prev =
      ⟨ValidateReduction.returns false, false, true, some k⟩ := by
  rcases run with _ | rv
  · exact ⟨ValidationFailureKind.erroredCmd, rfl⟩
  · rcases rv with v | ⟨res, v, isErr⟩
    · refine ⟨ValidationFailureKind.callbackFalse FalseReason.callbackYieldedFalse, ?_⟩
      simp_all [validateSession, validationSignalsFailure, failValidation]
    · cases res <;> cases isErr <;>
        simp_all [validateSession, validationSignalsFailure, failValidation]

theorem validateSession_fail_nonrestore (step : SessionStep) (hs : step ≠ SessionStep.restore)
    (run : ValidationRunCase) (prev : JsVal)
    (h : validationSignalsFailure run prev = true) :
    ∃ k, validateSession true step run prev =
      ⟨ValidateReduction.throws, false, true, some k⟩ := by
  rcases run with _ | rv
  · refine ⟨ValidationFailureKind.erroredCmd, ?_⟩
    simp [validateSession, hs]
  · rcases rv with v | ⟨res, v, isErr⟩
    · refine ⟨ValidationFailureKind.callbackFalse FalseReason.callbackYieldedFalse, ?_⟩
      simp_all [validateSession, validationSignalsFailure, failValidation]
    · cases res <;> cases isErr <;>
        simp_all [validateSession, validationSignalsFailure, failValidation]

/-- The session record as held in the registry of active sessions. `setup` and
`validate` carry the source text of the routines (what toString() yields);
`setupIsString` and `validateIsString` record whether the stored routine is the
serialized string carried over from the server rather than a live function,
which is what the _.isString checks at lines 175 and 179 test. -/
structure SessionData where
  id : String
  setup : String
  setupIsString : Bool
  validate : Option String
  validateIsString : Bool
  cacheAcrossSpecs : Bool
  hydrated : Bool
  captured : Option String
  deriving DecidableEq, Repr

/-- Observable events emitted while a workflow runs. -/
inductive WfEvent where
  /-- a setSessionLogStatus call with this status string -/
  | logStatus (s : String)
  /-- sessions.clearCurrentSessionData -/
  | clearSessionData
  /-- an invocation of the session setup routine (existingSession.setup at line 240) -/
  | runSetup
  /-- sessions.saveSessionData persisting the captured record -/
  | saveSession
  /-- sessions.setSessionData applying the captured state to the browser -/
  | applySession
  /-- the validate routine ran as a queued step -/
  | validateRun
  deriving DecidableEq, Repr

/-- Final outcome of a workflow. -/
inductive WfOutcome where
  | completed (status : String)
  | failedTest
  deriving DecidableEq, Repr

structure WfResult where
  events : List WfEvent
  outcome : WfOutcome
  session : SessionData
  deriving DecidableEq, Repr

/-- createSession (lines 207-264): runs the setup routine with an onQueueFailed
handler that marks the log failed and rethrows fatally (lines 218-238); on
success it snapshots the current browser state into the record, sets hydrated
and persists it (lines 242-249). `setupFails` says whether a command inside the
setup routine failed; `currentData` is the snapshot returned by
getCurrentSessionData. -/
def createSession (s : SessionData) (setupFails : Bool) (currentData : String) :
    List WfEvent × Option SessionData :=
  if setupFails then
    ([WfEvent.runSetup, WfEvent.logStatus "failed"], none)
  else
    ([WfEvent.runSetup, WfEvent.saveSession],
      some { s with hydrated := true, captured := some currentData })

/-- createSessionWorkflow (lines 465-482): log the in-progress status, clear the
current session data, create the session, then validate it; a not-valid result
throws (line 477) and a throwing validation fails the test, otherwise the
completed status is logged. -/
def createSessionWorkflow (s : SessionData) (step : SessionStep) (setupFails : Bool)
    (currentData : String) (run : ValidationRunCase) (prevSubject : JsVal) : WfResult :=
  let ev0 := [WfEvent.logStatus (statusMap.inProgress step), WfEvent.clearSessionData]
  match createSession s setupFails currentData with
  | (evC, none) => ⟨ev0 ++ evC, WfOutcome.failedTest, s⟩
  | (evC, some s1) =>
    let vr := validateSession s1.validate.isSome step run prevSubject
    let evV := if vr.stepQueued then [WfEvent.validateRun] else []
    match vr.reduction with
    | ValidateReduction.throws => ⟨ev0 ++ evC ++ evV, WfOutcome.failedTest, s1⟩
    | ValidateReduction.returns isValid =>
      if !isValid then
        ⟨ev0 ++ evC ++ evV, WfOutcome.failedTest, s1⟩
      else
        ⟨ev0 ++ evC ++ evV ++ [WfEvent.logStatus (statusMap.complete step)],
          WfOutcome.completed (statusMap.complete step), s1⟩

/-- restoreSessionWorkflow (lines 490-506): log restoring, clear the current
session data, apply the saved session (restoreSession, lines 266-283), then
validate with step restore; a not-valid result moves to
createSessionWorkflow with the recreate step (line 501), otherwise restored is
logged. The recreate arguments describe that second flow. -/
def restoreSessionWorkflow (s : SessionData)
    (run1 : ValidationRunCase) (prev1 : JsVal)
    (recreateSetupFails : Bool) (recreateData : String)
    (run2 : ValidationRunCase) (prev2 : JsVal) : WfResult :=
  let ev0 := [WfEvent.logStatus "restoring", WfEvent.clearSessionData, WfEvent.applySession]
  let vr := validateSession s.validate.isSome SessionStep.restore run1 prev1
  let evV := if vr.stepQueued then [WfEvent.validateRun] else []
  match vr.reduction with
  | ValidateReduction.throws => ⟨ev0 ++ evV, WfOutcome.failedTest, s⟩
  | ValidateReduction.returns isValid =>
    if !isValid then
      let r := createSessionWorkflow s SessionStep.recreate recreateSetupFails recreateData run2 prev2
      ⟨ev0 ++ evV ++ r.events, r.outcome, r.session⟩
    else
      ⟨ev0 ++ evV ++ [WfEvent.logStatus "restored"], WfOutcome.completed "restored", s⟩

/-- The record held by the server-side store for an id: the setup source text it
was saved with, plus the captured payload. -/
structure ServerSession where
  setup : String
  payload : String
  deriving DecidableEq, Repr

/-- Result of awaiting sessions.getSession(id) at line 528: the promise resolves
with a stored record, resolves empty, or rejects (the rejection is swallowed by
.catch so the local variable stays undefined). -/
inductive StoreGetResult where
  | found (sv : ServerSession)
  | notFound
  | getError
  deriving DecidableEq, Repr

inductive ResolvePath where
  | createPath
  | restorePath
  deriving DecidableEq, Repr

/-- The hydration decision of the command body (lines 527-539): when the record
is not hydrated, look the id up in the store with errors swallowed; a stored
record whose setup text equals the in-memory setup text is adopted (its
captured payload copied in, hydrated set) and the restore flow runs, otherwise
the create flow runs. An already-hydrated record goes straight to restore. -/
def resolveHydration (s : SessionData) (store : StoreGetResult) :
    ResolvePath × SessionData :=
  if !s.hydrated then
    let serverStoredSession : Option ServerSession :=
      match store with
      | StoreGetResult.found sv => some sv
      | StoreGetResult.notFound => none
      | StoreGetResult.getError => none
    match serverStoredSession with
    | some sv =>
      if sv.setup = s.setup then
        (ResolvePath.restorePath, { s with captured := some sv.payload, hydrated := true })
      else
        (ResolvePath.createPath, s)
    | none => (ResolvePath.createPath, s)
  else
    (ResolvePath.restorePath, s)

/-- The workflow dispatch of the command body (lines 523-543): resolve hydration
and run the chosen flow. The scenario arguments feed whichever flows run:
`setupFails`, `currentData`, `run1`, `prev1` describe the first flow, and the
recreate arguments describe a recreate flow entered from restore. -/
def runSessionFlows (s : SessionData) (store : StoreGetResult)
    (setupFails : Bool) (currentData : String)
    (run1 : ValidationRunCase) (prev1 : JsVal)
    (recreateSetupFails : Bool) (recreateData : String)
    (run2 : ValidationRunCase) (prev2 : JsVal) : WfResult :=
  match resolveHydration s store with
  | (ResolvePath.createPath, s1) =>
    createSessionWorkflow s1 SessionStep.create setupFails currentData run1 prev1
  | (ResolvePath.restorePath, s1) =>
    restoreSessionWorkflow s1 run1 prev1 recreateSetupFails recreateData run2 prev2

/-- The options argument after the per-key type checks of lines 131-154: a
validate routine given as its source text, and the cacheAcrossSpecs flag after
JavaScript boolean coercion (the code reads it as !!options.cacheAcrossSpecs). -/
structure SessionOptions where
  validate : Option String
  cacheAcrossSpecs : Bool
  deriving DecidableEq, Repr

/-- The registry state the command reads and writes: the active sessions held by
the sessions manager (id to record) and the set of ids registered for the
current spec (sessionsManager.registeredSessions). -/
structure SessionsState where
  activeSessions : List (String × SessionData)
  registeredSessions : List String
  deriving DecidableEq, Repr

/-- Errors the command can raise before any workflow step is queued. The
duplicateId payload carries the three uniqueness flags when the error is raised
at line 165 with a conflicting live record, and carries none when it is raised
at line 184 for a registered id without an active record. -/
inductive SessionsError where
  | wrongArgSetup
  | duplicateId (flags : Option (Bool × Bool × Bool))
  deriving DecidableEq, Repr

def getActiveSession (st : SessionsState) (id : String) : Option SessionData :=
  st.activeSessions.lookup id

/-- Replace the binding for an id, or append it when absent; models the in-place
mutation of the record object held by the manager. -/
def updateAssoc (l : List (String × SessionData)) (id : String) (s : SessionData) :
    List (String × SessionData) :=
  match l with
  | [] => [(id, s)]
  | (k, v) :: rest =>
    if k = id then (id, s) :: rest else (k, v) :: updateAssoc rest id s

structure RegisterOutcome where
  state : SessionsState
  session : SessionData
  deriving DecidableEq, Repr

/-- hasUniqSetupDefinition (line 160): the trimmed source text of the setup
routines differs. -/
def hasUniqSetupDefinition (session : SessionData) (setupFn : String) : Bool :=
  session.setup.trim ≠ setupFn.trim

/-- hasUniqValidateDefinition (line 161): the validate routines differ in
presence, or are both present with differing trimmed source text. -/
def hasUniqValidateDefinition (session : SessionData) (opts : SessionOptions) : Bool :=
  (session.validate.isSome ≠ opts.validate.isSome : Bool)
  || (session.validate.isSome && opts.validate.isSome
      && ((session.validate.getD "").trim ≠ (opts.validate.getD "").trim : Bool))

/-- hasUniqPersistence (line 162): the cacheAcrossSpecs flags differ. -/
def hasUniqPersistence (session : SessionData) (opts : SessionOptions) : Bool :=
  (session.cacheAcrossSpecs ≠ opts.cacheAcrossSpecs : Bool)

/-- Lines 175-180: a cross-spec cached record whose routines are still the
serialized strings carried from the server has them replaced in place by the
live routines of the present call. -/
def adoptLiveRoutines (session : SessionData) (setupFn : String) (opts : SessionOptions) :
    SessionData :=
  let session1 :=
    if session.cacheAcrossSpecs && session.setupIsString then
      { session with setup := setupFn, setupIsString := false }
    else session
  if session1.cacheAcrossSpecs && session1.validate.isSome && session1.validateIsString then
    { session1 with validate := opts.validate, validateIsString := false }
  else session1

/-- The argument-validation and registration part of the session command
(lines 113-195). The setup argument is checked unconditionally at
lines 123-125. With an active record for the id, the three uniqueness flags are
computed from trimmed source text (lines 160-162) and any set flag on a
spec-registered id raises duplicateId with all three flags (lines 164-173);
otherwise a cross-spec cached record whose routines are still serialized
strings has them replaced by the live ones (lines 175-180). Without an active
record, a spec-registered id raises duplicateId without flags (lines 183-185)
and otherwise a fresh unhydrated record is defined and the id marked registered
(lines 187-194). -/
def sessionRegister (st : SessionsState) (id : String) (setup : Option String)
    (opts : SessionOptions) : Except SessionsError RegisterOutcome :=
  match setup with
  | none => Except.error SessionsError.wrongArgSetup
  | some setupFn =>
    let isRegisteredSessionForSpec := id ∈ st.registeredSessions
    match getActiveSession st id with
    | some session =>
      if isRegisteredSessionForSpec
          ∧ (hasUniqSetupDefinition session setupFn
             || hasUniqValidateDefinition session opts
             || hasUniqPersistence session opts) = true then
        Except.error (SessionsError.duplicateId
          (some (hasUniqSetupDefinition session setupFn,
                 hasUniqValidateDefinition session opts,
                 hasUniqPersistence session opts)))
      else
        let session2 := adoptLiveRoutines session setupFn opts
        Except.ok ⟨{ st with activeSessions := updateAssoc st.activeSessions id session2 }, session2⟩
    | none =>
      if isRegisteredSessionForSpec then
        Except.error (SessionsError.duplicateId none)
      else
        let session : SessionData :=
          ⟨id, setupFn, false, opts.validate, false, opts.cacheAcrossSpecs, false, none⟩
        Except.ok ⟨⟨updateAssoc st.activeSessions id session, id :: st.registeredSessions⟩, session⟩

/-- The whole session command: register (or reuse) the record, run the
workflows, and write the finally mutated record back into the state. -/
def sessionCommand (st : SessionsState) (id : String) (setup : Option String)
    (opts : SessionOptions) (store : StoreGetResult)
    (setupFails : Bool) (currentData : String)
    (run1 : ValidationRunCase) (prev1 : JsVal)
    (recreateSetupFails : Bool) (recreateData : String)
    (run2 : ValidationRunCase) (prev2 : JsVal) :
    Except SessionsError (SessionsState × WfResult) :=
  match sessionRegister st id setup opts with
  | Except.error e => Except.error e
  | Except.ok r =>
    let wf := runSessionFlows r.session store setupFails currentData run1 prev1
      recreateSetupFails recreateData run2 prev2
    Except.ok ({ r.state with activeSessions := updateAssoc r.state.activeSessions id wf.session },
      wf)

/-- The run:start handler (lines 86-92): every active session record flagged
cacheAcrossSpecs is marked registered for the spec. -/
def runStartHandler (st : SessionsState) : SessionsState :=
  { st with
    registeredSessions :=
      st.activeSessions.foldl
        (fun reg p => if p.2.cacheAcrossSpecs then p.1 :: reg else reg)
        st.registeredSessions }

/-- Modelled from the spec: the spec-boundary reset performed by the sessions
manager and server, whose code is not under src. Following section 3 of the
spec, registeredSessionsForSpec is reset at the spec boundary, and a record
survives the boundary only when cacheAcrossSpecs is true, carried over from
run-wide state in serialized form (its routines stored as their source text),
which is the form the _.isString checks at lines 175-180 then detect.
carryOver is the serialized form of one record. -/
def carryOver (s : SessionData) : SessionData :=
  { s with setupIsString := true, validateIsString := s.validate.isSome }

/-- Modelled from the spec: the spec-boundary reset itself, see carryOver. -/
def specBoundary (st : SessionsState) : SessionsState :=
  { activeSessions :=
      st.activeSessions.filterMap
        (fun p => if p.2.cacheAcrossSpecs then some (p.1, carryOver p.2) else none),
    registeredSessions := [] }

/-- A queued command as the failure handler sees it: its chainer id and whether
it carries the restore-within flag that exempts it from skipping (line 370). -/
structure QCommand where
  chainerId : Nat
  restoreWithin : Bool
  deriving DecidableEq, Repr, Inhabited

/-- The lodash findIndex call of lines 359-364: the predicate is false for every
command while _commandToRunAfterValidation is still undefined, and otherwise
matches the first command with its chainer id; no match yields -1. -/
def findIndexJs (commands : List QCommand) (resumeChainer : Option Nat) : Int :=
  match resumeChainer with
  | none => -1
  | some cid =>
    match commands.findIdx? (fun c => c.chainerId == cid) with
    | some i => (i : Int)
    | none => -1

/-- The skip loop of lines 366-373: for i from the current queue index while
i is less than the resume index, every command without the restore-within flag
is skipped. -/
def skippedIndices (commands : List QCommand) (queueIndex : Nat) (index : Int) : List Nat :=
  (List.range commands.length).filter
    (fun i => decide (queueIndex ≤ i) && decide ((i : Int) < index)
      && !(commands.getD i default).restoreWithin)

/-- What the restore branch of the onQueueFailed handler does to the queue. -/
structure QueueFailureRewrite where
  skipped : List Nat
  newIndex : Int
  isRecovered : Bool
  deriving DecidableEq, Repr

/-- The restore branch of the onQueueFailed handler installed by validateSession
(lines 356-385): locate the resume command with findIndex, skip the pending
non-restore-within commands strictly before it, assign queue.index the found
index unconditionally (line 380), and mark the error recovered (line 382). -/
def onQueueFailedRestore (commands : List QCommand) (queueIndex : Nat)
    (resumeChainer : Option Nat) : QueueFailureRewrite :=
  let index := findIndexJs commands resumeChainer
  { skipped := skippedIndices commands queueIndex index,
    newIndex := index,
    isRecovered := true }

/-- Concrete two-record run state used in examples: the login session is
cached across specs and hydrated, the other session is not cached. -/
def carrySampleState : SessionsState :=
  ⟨[("login", ⟨"login", "sA", false, some "vA", false, true, true, some "c"⟩),
    ("other", ⟨"other", "sB", false, none, false, false, true, some "c2"⟩)], []⟩

/-!  Claims. -/

/-- C8: after the validation step and its designated resume step complete, the
queue failure handler is uninstalled unconditionally, on success as well as on
every failure path, so no interception remains installed for subsequent
unrelated commands. -/
theorem validation_handler_always_uninstalled (hasValidate : Bool) (step : SessionStep)
    (run : ValidationRunCase) (prev : JsVal) :
    (validateSession hasValidate step run prev).handlerInstalled = false := by
  cases hasValidate <;>
    rcases run with _ | (v | ⟨res, v, isErr⟩) <;>
    simp only [validateSession, failValidation] <;>
    (repeat' split) <;>
    rfl

/-- C7 counterexample: with the session login already defined and registered
for the spec, calling the command without a setup argument still raises the
wrongArgSetup configuration error, refuting the claim that such a bare
lookup call is permitted. -/
theorem setup_omitted_counterexample :
    sessionCommand
      ⟨[("login", ⟨"login", "setupA", false, none, false, false, true, some "blob"⟩)], ["login"]⟩
      "login" none ⟨none, false⟩ StoreGetResult.notFound false "d"
      (ValidationRunCase.completes (ValidateReturn.value JsVal.objOther)) JsVal.undef
      false "d" (ValidationRunCase.completes (ValidateReturn.value JsVal.objOther)) JsVal.undef
      = Except.error SessionsError.wrongArgSetup := rfl

/-- C7 (amended): the setup argument is required unconditionally; omitting it
raises the wrongArgSetup configuration error even when an already-defined
session with the given id exists for the current spec (lines 123-125 check the
argument before the registry is consulted). -/
theorem setup_always_required (st : SessionsState) (id : String) (opts : SessionOptions)
    (store : StoreGetResult) (setupFails : Bool) (currentData : String)
    (run1 : ValidationRunCase) (prev1 : JsVal)
    (recreateSetupFails : Bool) (recreateData : String)
    (run2 : ValidationRunCase) (prev2 : JsVal) :
    sessionCommand st id none opts store setupFails currentData run1 prev1
      recreateSetupFails recreateData run2 prev2
      = Except.error SessionsError.wrongArgSetup := rfl

/-- C2 counterexample: when the resume-step lookup yields not-found (here the
resume command is still undefined), the handler skips nothing but nevertheless
rewrites the queue cursor, assigning it the not-found sentinel -1 instead of
leaving it at the current index 0, and still marks the error recovered. -/
theorem queue_rewrite_counterexample :
    (onQueueFailedRestore [⟨0, false⟩] 0 none).skipped = []
      ∧ (onQueueFailedRestore [⟨0, false⟩] 0 none).newIndex = -1
      ∧ ¬ (onQueueFailedRestore [⟨0, false⟩] 0 none).newIndex = (0 : Int)
      ∧ (onQueueFailedRestore [⟨0, false⟩] 0 none).isRecovered = true := by
  refine ⟨rfl, rfl, by decide, rfl⟩

/-- C2 (amended): when the lookup of the designated resume step yields
not-found, the interceptor skips no steps, but it does rewrite the execution
cursor, setting it to the not-found sentinel -1, and still marks the error
recovered; whenever the lookup succeeds, the cursor is rewritten to exactly the
found resume index, every skipped step lies at or after the current cursor and
strictly before the resume index, and in particular when the resume step lies
at or ahead of the cursor the rewrite only ever moves the cursor forward. -/
theorem queue_rewrite_cursor (commands : List QCommand) (queueIndex : Nat)
    (resumeChainer : Option Nat) :
    (findIndexJs commands resumeChainer = -1 →
        onQueueFailedRestore commands queueIndex resumeChainer =
          ⟨[], -1, true⟩)
    ∧ (∀ j : Nat, findIndexJs commands resumeChainer = (j : Int) →
        (onQueueFailedRestore commands queueIndex resumeChainer).newIndex = (j : Int)
        ∧ (∀ i ∈ (onQueueFailedRestore commands queueIndex resumeChainer).skipped,
            queueIndex ≤ i ∧ i < j)
        ∧ (queueIndex ≤ j →
            (queueIndex : Int) ≤ (onQueueFailedRestore commands queueIndex resumeChainer).newIndex)) := by
  constructor
  · intro hnf
    simp only [onQueueFailedRestore, hnf, skippedIndices]
    congr 1
    rw [List.filter_eq_nil_iff]
    intro i _
    simp only [Bool.and_eq_true, decide_eq_true_eq, not_and, and_imp]
    intro _ h
    exact absurd h (by omega)
  · intro j hj
    refine ⟨by simp [onQueueFailedRestore, hj], ?_, ?_⟩
    · intro i hi
      simp only [onQueueFailedRestore, hj, skippedIndices, List.mem_filter,
        Bool.and_eq_true, decide_eq_true_eq] at hi
      exact ⟨hi.2.1.1, by exact_mod_cast hi.2.1.2⟩
    · intro hle
      simp only [onQueueFailedRestore, hj]
      exact_mod_cast hle

/-- C2 witness: a concrete queue where the resume command sits at index 1, the
cursor is at 0 and one intervening command is skipped. -/
theorem queue_rewrite_cursor_witness :
    (onQueueFailedRestore [⟨5, false⟩, ⟨7, false⟩] 0 (some 7)).newIndex = (1 : Int)
      ∧ (0 : Int) ≤ (onQueueFailedRestore [⟨5, false⟩, ⟨7, false⟩] 0 (some 7)).newIndex := by
  have h := (queue_rewrite_cursor [⟨5, false⟩, ⟨7, false⟩] 0 (some 7)).2 1 (by decide)
  exact ⟨h.1, h.2.2 (by decide)⟩

/-- C6: the validation outcome reduction. A promise-like return value is
awaited: resolution to exactly false is the explicit-invalid failure built with
the promise-resolved-false reason and any other resolution is valid; a
rejection always fails, carried by the rejection error itself when it is an
Error instance and by the synthesized callback-false error otherwise. An
undefined or chained-queue-step return value makes the resume step inspect the
subject yielded by the previous queued step, and the outcome is invalid
exactly when that subject is exactly false. An absent routine is immediately
valid and queues no validation step. -/
theorem validation_outcome_reduction (step : SessionStep) (v : JsVal) (isErr : Bool)
    (prev : JsVal) (run : ValidationRunCase) :
    ((validateSession true step
        (ValidationRunCase.completes (ValidateReturn.promiseLike true v isErr)) prev).failure
      = if v = JsVal.boolean false
        then some (ValidationFailureKind.callbackFalse FalseReason.promiseResolvedFalse)
        else none)
    ∧ ((validateSession true step
        (ValidationRunCase.completes (ValidateReturn.promiseLike false v isErr)) prev).failure
      = some (if isErr
          then ValidationFailureKind.erroredCmd
          else ValidationFailureKind.callbackFalse FalseReason.promiseRejected))
    ∧ ((validateSession true step
        (ValidationRunCase.completes (ValidateReturn.value JsVal.undef)) prev).failure
      = if prev = JsVal.boolean false
        then some (ValidationFailureKind.callbackFalse FalseReason.callbackYieldedFalse)
        else none)
    ∧ ((validateSession true step
        (ValidationRunCase.completes (ValidateReturn.value JsVal.cyChainer)) prev).failure
      = if prev = JsVal.boolean false
        then some (ValidationFailureKind.callbackFalse FalseReason.callbackYieldedFalse)
        else none)
    ∧ (validateSession false step run prev
      = ⟨ValidateReduction.returns true, false, false, none⟩) := by
  refine ⟨?_, ?_, ?_, ?_, rfl⟩ <;>
    simp only [validateSession, failValidation] <;>
    (repeat' split) <;>
    simp_all

/-- C10: an id present in the registered-for-spec set while no active session
record exists in the registry makes the session command raise the duplicate
error without any property flags, instead of defining a fresh session. -/
theorem registered_id_without_record_errors (st : SessionsState) (id : String)
    (setupText : String) (opts : SessionOptions) (store : StoreGetResult)
    (setupFails : Bool) (currentData : String) (run1 : ValidationRunCase) (prev1 : JsVal)
    (recreateSetupFails : Bool) (recreateData : String) (run2 : ValidationRunCase) (prev2 : JsVal)
    (hNone : getActiveSession st id = none)
    (hReg : id ∈ st.registeredSessions) :
    sessionCommand st id (some setupText) opts store setupFails currentData run1 prev1
      recreateSetupFails recreateData run2 prev2
      = Except.error (SessionsError.duplicateId none) := by
  simp [sessionCommand, sessionRegister, hNone, hReg]

/-- C10 witness: concrete registered id with no active record. -/
theorem registered_id_without_record_errors_witness :
    sessionCommand ⟨[], ["login"]⟩ "login" (some "s") ⟨none, false⟩ StoreGetResult.notFound
      false "d" (ValidationRunCase.completes (ValidateReturn.value JsVal.objOther)) JsVal.undef
      false "d" (ValidationRunCase.completes (ValidateReturn.value JsVal.objOther)) JsVal.undef
      = Except.error (SessionsError.duplicateId none) :=
  registered_id_without_record_errors _ _ _ _ _ _ _ _ _ _ _ _ _ rfl (by simp)

/-- C4: calling the session command again for an id registered for the current
spec with an active record, under a different setup text, a different validate
text or presence, or a different cacheAcrossSpecs flag, raises the duplicateId
error carrying exactly the three mismatch flags hasUniqSetupDefinition,
hasUniqValidateDefinition and hasUniqPersistence. -/
theorem duplicate_definition_error (st : SessionsState) (id : String) (record : SessionData)
    (setupText : String) (opts : SessionOptions) (store : StoreGetResult)
    (setupFails : Bool) (currentData : String) (run1 : ValidationRunCase) (prev1 : JsVal)
    (recreateSetupFails : Bool) (recreateData : String) (run2 : ValidationRunCase) (prev2 : JsVal)
    (hLookup : getActiveSession st id = some record)
    (hReg : id ∈ st.registeredSessions)
    (hMismatch : (hasUniqSetupDefinition record setupText
        || hasUniqValidateDefinition record opts
        || hasUniqPersistence record opts) = true) :
    sessionCommand st id (some setupText) opts store setupFails currentData run1 prev1
      recreateSetupFails recreateData run2 prev2
      = Except.error (SessionsError.duplicateId
          (some (hasUniqSetupDefinition record setupText,
                 hasUniqValidateDefinition record opts,
                 hasUniqPersistence record opts))) := by
  simp [sessionCommand, sessionRegister, hLookup, hReg, hMismatch]

/-- C4 witness: the registered record has no validate routine and the second
call passes one, so exactly hasUniqValidateDefinition is set. -/
theorem duplicate_definition_error_witness :
    sessionCommand
      ⟨[("login", ⟨"login", "setupA", false, none, false, false, false, none⟩)], ["login"]⟩
      "login" (some "setupA") ⟨some "v", false⟩ StoreGetResult.notFound false "d"
      (ValidationRunCase.completes (ValidateReturn.value JsVal.objOther)) JsVal.undef
      false "d" (ValidationRunCase.completes (ValidateReturn.value JsVal.objOther)) JsVal.undef
      = Except.error (SessionsError.duplicateId (some (false, true, false))) := by
  have h := duplicate_definition_error
      ⟨[("login", ⟨"login", "setupA", false, none, false, false, false, none⟩)], ["login"]⟩
      "login" ⟨"login", "setupA", false, none, false, false, false, none⟩
      "setupA" ⟨some "v", false⟩ StoreGetResult.notFound false "d"
      (ValidationRunCase.completes (ValidateReturn.value JsVal.objOther)) JsVal.undef
      false "d" (ValidationRunCase.completes (ValidateReturn.value JsVal.objOther)) JsVal.undef
      rfl (by simp)
      (by simp [hasUniqSetupDefinition, hasUniqValidateDefinition, hasUniqPersistence])
  simpa [hasUniqSetupDefinition, hasUniqValidateDefinition, hasUniqPersistence] using h

/-- Helper: the create and recreate flows always begin by logging the
in-progress status, clearing the current session data and running setup. -/
theorem createSessionWorkflow_events (s : SessionData) (step : SessionStep)
    (setupFails : Bool) (currentData : String) (run : ValidationRunCase) (prev : JsVal) :
    (createSessionWorkflow s step setupFails currentData run prev).events.take 3
      = [WfEvent.logStatus (statusMap.inProgress step),
         WfEvent.clearSessionData, WfEvent.runSetup] := by
  cases setupFails <;>
    simp [createSessionWorkflow, createSession] <;>
    (repeat' split) <;>
    simp

/-- C1: a validation failure while the session was restored transitions the
workflow to recreating: the restore flow continues as exactly the recreate
flow, whose first steps log the recreating status and re-run setup, and the
final outcome is the recreate flow outcome, so the test is never failed solely
because a restored session failed validation. A validation failure while the
session was freshly created or recreated fails the test. -/
theorem restored_validation_failure_recreates (s : SessionData)
    (run1 : ValidationRunCase) (prev1 : JsVal)
    (recreateSetupFails : Bool) (recreateData : String)
    (run2 : ValidationRunCase) (prev2 : JsVal) (currentData : String)
    (hv : s.validate.isSome = true)
    (hfail : validationSignalsFailure run1 prev1 = true) :
    (restoreSessionWorkflow s run1 prev1 recreateSetupFails recreateData run2 prev2
      = ⟨[WfEvent.logStatus "restoring", WfEvent.clearSessionData, WfEvent.applySession,
            WfEvent.validateRun]
          ++ (createSessionWorkflow s SessionStep.recreate recreateSetupFails recreateData
                run2 prev2).events,
        (createSessionWorkflow s SessionStep.recreate recreateSetupFails recreateData
          run2 prev2).outcome,
        (createSessionWorkflow s SessionStep.recreate recreateSetupFails recreateData
          run2 prev2).session⟩)
    ∧ WfEvent.logStatus "recreating"
        ∈ (restoreSessionWorkflow s run1 prev1 recreateSetupFails recreateData run2 prev2).events
    ∧ (createSessionWorkflow s SessionStep.create false currentData run1 prev1).outcome
        = WfOutcome.failedTest
    ∧ (createSessionWorkflow s SessionStep.recreate false currentData run1 prev1).outcome
        = WfOutcome.failedTest := by
  obtain ⟨k1, hk1⟩ := validateSession_fail_restore run1 prev1 hfail
  have hrw : restoreSessionWorkflow s run1 prev1 recreateSetupFails recreateData run2 prev2
      = ⟨[WfEvent.logStatus "restoring", WfEvent.clearSessionData, WfEvent.applySession,
            WfEvent.validateRun]
          ++ (createSessionWorkflow s SessionStep.recreate recreateSetupFails recreateData
                run2 prev2).events,
        (createSessionWorkflow s SessionStep.recreate recreateSetupFails recreateData
          run2 prev2).outcome,
        (createSessionWorkflow s SessionStep.recreate recreateSetupFails recreateData
          run2 prev2).session⟩ := by
    simp [restoreSessionWorkflow, hv, hk1]
  refine ⟨hrw, ?_, ?_, ?_⟩
  · rw [hrw]
    have ht := createSessionWorkflow_events s SessionStep.recreate
      recreateSetupFails recreateData run2 prev2
    have hmem : WfEvent.logStatus "recreating"
        ∈ (createSessionWorkflow s SessionStep.recreate recreateSetupFails recreateData
            run2 prev2).events.take 3 := by
      rw [ht]
      simp [statusMap.inProgress]
    simp only [WfResult.events, List.mem_append]
    exact Or.inr (List.take_subset 3 _ hmem)
  · obtain ⟨k2, hk2⟩ := validateSession_fail_nonrestore SessionStep.create (by simp)
      run1 prev1 hfail
    simp [createSessionWorkflow, createSession, hv, hk2]
  · obtain ⟨k3, hk3⟩ := validateSession_fail_nonrestore SessionStep.recreate (by simp)
      run1 prev1 hfail
    simp [createSessionWorkflow, createSession, hv, hk3]

/-- C1 witness: concrete record with a validate routine and a queue failure
during restore validation. -/
theorem restored_validation_failure_recreates_witness :
    WfEvent.logStatus "recreating"
      ∈ (restoreSessionWorkflow ⟨"login", "sA", false, some "vA", false, false, true, some "c"⟩
          ValidationRunCase.queueFails JsVal.undef false "d"
          (ValidationRunCase.completes (ValidateReturn.value JsVal.objOther)) JsVal.undef).events
    ∧ (createSessionWorkflow ⟨"login", "sA", false, some "vA", false, false, true, some "c"⟩
        SessionStep.create false "d" ValidationRunCase.queueFails JsVal.undef).outcome
      = WfOutcome.failedTest := by
  have h := restored_validation_failure_recreates
    ⟨"login", "sA", false, some "vA", false, false, true, some "c"⟩
    ValidationRunCase.queueFails JsVal.undef false "d"
    (ValidationRunCase.completes (ValidateReturn.value JsVal.objOther)) JsVal.undef "d"
    rfl rfl
  exact ⟨h.2.1, h.2.2.1⟩

/-- C3: for a not-yet-hydrated record, a stored session whose stored setup
fingerprint equals the in-memory setup text is adopted, with captured state
copied in and hydrated set, taking the restore path; a not-found result, a
swallowed store error, or a fingerprint mismatch takes the create path; and a
restore flow whose validation passes never invokes setup. -/
theorem hydration_resolution (s : SessionData) (store : StoreGetResult) (sv : ServerSession)
    (s1 : SessionData) (run1 : ValidationRunCase) (prev1 : JsVal)
    (rsf : Bool) (rd : String) (run2 : ValidationRunCase) (prev2 : JsVal)
    (hnh : s.hydrated = false) :
    (store = StoreGetResult.found sv → sv.setup = s.setup →
        resolveHydration s store
          = (ResolvePath.restorePath, { s with captured := some sv.payload, hydrated := true }))
    ∧ (store = StoreGetResult.found sv → sv.setup ≠ s.setup →
        resolveHydration s store = (ResolvePath.createPath, s))
    ∧ (store = StoreGetResult.notFound →
        resolveHydration s store = (ResolvePath.createPath, s))
    ∧ (store = StoreGetResult.getError →
        resolveHydration s store = (ResolvePath.createPath, s))
    ∧ (validationSignalsFailure run1 prev1 = false →
        WfEvent.runSetup ∉ (restoreSessionWorkflow s1 run1 prev1 rsf rd run2 prev2).events) := by
  refine ⟨?_, ?_, ?_, ?_, ?_⟩
  · intro hst heq
    subst hst
    simp [resolveHydration, hnh, heq]
  · intro hst hne
    subst hst
    simp [resolveHydration, hnh, hne]
  · intro hst
    subst hst
    simp [resolveHydration, hnh]
  · intro hst
    subst hst
    simp [resolveHydration, hnh]
  · intro hpass
    have hp := validateSession_pass s1.validate.isSome SessionStep.restore run1 prev1 hpass
    simp only [restoreSessionWorkflow, hp]
    (repeat' split) <;> simp_all

/-- C3 witness: concrete unhydrated record and a matching stored session. -/
theorem hydration_resolution_witness :
    resolveHydration ⟨"login", "sA", false, none, false, false, false, none⟩
        (StoreGetResult.found ⟨"sA", "blob"⟩)
      = (ResolvePath.restorePath, ⟨"login", "sA", false, none, false, false, true, some "blob"⟩)
    ∧ WfEvent.runSetup
        ∉ (restoreSessionWorkflow ⟨"login", "sA", false, none, false, false, true, some "blob"⟩
            (ValidationRunCase.completes (ValidateReturn.value JsVal.objOther)) JsVal.undef
            false "d"
            (ValidationRunCase.completes (ValidateReturn.value JsVal.objOther)) JsVal.undef).events := by
  have h := hydration_resolution ⟨"login", "sA", false, none, false, false, false, none⟩
    (StoreGetResult.found ⟨"sA", "blob"⟩) ⟨"sA", "blob"⟩
    ⟨"login", "sA", false, none, false, false, true, some "blob"⟩
    (ValidationRunCase.completes (ValidateReturn.value JsVal.objOther)) JsVal.undef
    false "d"
    (ValidationRunCase.completes (ValidateReturn.value JsVal.objOther)) JsVal.undef
    rfl
  exact ⟨h.1 rfl rfl, h.2.2.2.2 rfl⟩

/-- C5: calling the session command twice with identical arguments in the same
spec is idempotent. Starting from an empty registry, a first call that creates
the session runs setup and leaves a hydrated record; the second call raises no
error, leaves the registry state unchanged, re-invokes no setup, reuses the
hydrated record unchanged, and completes as restored. -/
theorem session_second_call_idempotent (id setupText : String) (vtext : Option String)
    (cache : Bool) (store2 : StoreGetResult) (run2 : ValidationRunCase) (prev2 : JsVal)
    (st1 : SessionsState) (wf1 : WfResult)
    (h2 : validationSignalsFailure run2 prev2 = false)
    (h1 : sessionCommand ⟨[], []⟩ id (some setupText) ⟨vtext, cache⟩ StoreGetResult.notFound
        false "data1" (ValidationRunCase.completes (ValidateReturn.value JsVal.objOther)) JsVal.undef
        false "data1" (ValidationRunCase.completes (ValidateReturn.value JsVal.objOther)) JsVal.undef
        = Except.ok (st1, wf1)) :
    WfEvent.runSetup ∈ wf1.events
    ∧ wf1.session.hydrated = true
    ∧ ∃ wf2, sessionCommand st1 id (some setupText) ⟨vtext, cache⟩ store2
          false "data2" run2 prev2 false "data2" run2 prev2 = Except.ok (st1, wf2)
        ∧ WfEvent.runSetup ∉ wf2.events
        ∧ wf2.outcome = WfOutcome.completed "restored"
        ∧ wf2.session = wf1.session := by
  have hpass1 : validationSignalsFailure
      (ValidationRunCase.completes (ValidateReturn.value JsVal.objOther)) JsVal.undef = false := rfl
  have hv1 := validateSession_pass vtext.isSome SessionStep.create
    (ValidationRunCase.completes (ValidateReturn.value JsVal.objOther)) JsVal.undef hpass1
  have hcomp : sessionCommand ⟨[], []⟩ id (some setupText) ⟨vtext, cache⟩ StoreGetResult.notFound
      false "data1" (ValidationRunCase.completes (ValidateReturn.value JsVal.objOther)) JsVal.undef
      false "data1" (ValidationRunCase.completes (ValidateReturn.value JsVal.objOther)) JsVal.undef
      = Except.ok (⟨[(id, ⟨id, setupText, false, vtext, false, cache, true, some "data1"⟩)], [id]⟩,
          ⟨[WfEvent.logStatus "creating", WfEvent.clearSessionData, WfEvent.runSetup,
              WfEvent.saveSession]
            ++ (if vtext.isSome then [WfEvent.validateRun] else [])
            ++ [WfEvent.logStatus "created"],
           WfOutcome.completed "created",
           ⟨id, setupText, false, vtext, false, cache, true, some "data1"⟩⟩) := by
    simp [sessionCommand, sessionRegister, getActiveSession, updateAssoc, runSessionFlows,
      resolveHydration, createSessionWorkflow, createSession, hv1, statusMap.inProgress,
      statusMap.complete]
  rw [hcomp] at h1
  simp only [Except.ok.injEq, Prod.mk.injEq] at h1
  obtain ⟨hst, hwf⟩ := h1
  subst hst
  subst hwf
  have hv2 := validateSession_pass vtext.isSome SessionStep.restore run2 prev2 h2
  refine ⟨by simp, rfl,
    ⟨[WfEvent.logStatus "restoring", WfEvent.clearSessionData, WfEvent.applySession]
        ++ (if vtext.isSome then [WfEvent.validateRun] else [])
        ++ [WfEvent.logStatus "restored"],
     WfOutcome.completed "restored",
     ⟨id, setupText, false, vtext, false, cache, true, some "data1"⟩⟩, ?_, ?_, rfl, rfl⟩
  · simp [sessionCommand, sessionRegister, getActiveSession, updateAssoc, runSessionFlows,
      resolveHydration, restoreSessionWorkflow, hv2, hasUniqSetupDefinition,
      hasUniqValidateDefinition, hasUniqPersistence, adoptLiveRoutines]
  · rcases vtext with _ | v <;> simp

/-- C5 witness: concrete login session created then reused without setup. -/
theorem session_second_call_idempotent_witness :
    ∃ wf2, sessionCommand
        ⟨[("login", ⟨"login", "sA", false, none, false, false, true, some "data1"⟩)], ["login"]⟩
        "login" (some "sA") ⟨none, false⟩ StoreGetResult.notFound
        false "data2" (ValidationRunCase.completes (ValidateReturn.value JsVal.objOther)) JsVal.undef
        false "data2" (ValidationRunCase.completes (ValidateReturn.value JsVal.objOther)) JsVal.undef
        = Except.ok
          (⟨[("login", ⟨"login", "sA", false, none, false, false, true, some "data1"⟩)], ["login"]⟩,
           wf2)
      ∧ WfEvent.runSetup ∉ wf2.events
      ∧ wf2.outcome = WfOutcome.completed "restored" := by
  have h := session_second_call_idempotent "login" "sA" none false StoreGetResult.notFound
    (ValidationRunCase.completes (ValidateReturn.value JsVal.objOther)) JsVal.undef
    ⟨[("login", ⟨"login", "sA", false, none, false, false, true, some "data1"⟩)], ["login"]⟩
    ⟨[WfEvent.logStatus "creating", WfEvent.clearSessionData, WfEvent.runSetup,
        WfEvent.saveSession, WfEvent.logStatus "created"],
     WfOutcome.completed "created",
     ⟨"login", "sA", false, none, false, false, true, some "data1"⟩⟩
    rfl (by simp [sessionCommand, sessionRegister, getActiveSession, updateAssoc,
      runSessionFlows, resolveHydration, createSessionWorkflow, createSession,
      validateSession, statusMap.inProgress, statusMap.complete])
  obtain ⟨-, -, wf2, heq, hmem, hout, -⟩ := h
  exact ⟨wf2, heq, hmem, hout⟩

/-- Helper: a successful association lookup is a membership. -/
theorem lookup_mem (l : List (String × SessionData)) (id : String) (sd : SessionData)
    (h : l.lookup id = some sd) : (id, sd) ∈ l := by
  induction l with
  | nil => simp [List.lookup] at h
  | cons p rest ih =>
    rcases p with ⟨k, v⟩
    rcases hk : (id == k) with _ | _
    · simp only [List.lookup, hk] at h
      exact List.mem_cons_of_mem _ (ih h)
    · have hik : id = k := by simpa using hk
      subst hik
      simp only [List.lookup, hk] at h
      obtain rfl : v = sd := by injection h
      exact List.mem_cons_self _ _

/-- Helper: the run-start fold only ever adds ids to the registered set. -/
theorem runStart_fold_mono (l : List (String × SessionData)) (reg : List String)
    (x : String) (hx : x ∈ reg) :
    x ∈ l.foldl (fun reg p => if p.2.cacheAcrossSpecs then p.1 :: reg else reg) reg := by
  induction l generalizing reg with
  | nil => exact hx
  | cons p rest ih =>
    simp only [List.foldl_cons]
    by_cases hc : p.2.cacheAcrossSpecs
    · simp only [hc, if_true]
      exact ih _ (List.mem_cons_of_mem _ hx)
    · simp only [hc, if_false]
      exact ih _ hx

/-- Helper: the run-start fold registers the id of every cached record. -/
theorem runStart_fold_of_mem (l : List (String × SessionData)) (reg : List String)
    (id : String) (sd : SessionData) (hmem : (id, sd) ∈ l)
    (hc : sd.cacheAcrossSpecs = true) :
    id ∈ l.foldl (fun reg p => if p.2.cacheAcrossSpecs then p.1 :: reg else reg) reg := by
  induction l generalizing reg with
  | nil => cases hmem
  | cons p rest ih =>
    rcases List.mem_cons.mp hmem with heq | h
    · subst heq
      simp only [List.foldl_cons, hc, if_true]
      exact runStart_fold_mono rest _ id (List.mem_cons_self _ _)
    · simp only [List.foldl_cons]
      by_cases hpc : p.2.cacheAcrossSpecs
      · simp only [hpc, if_true]
        exact ih _ h
      · simp only [hpc, if_false]
        exact ih _ h

/-- Helper: every id the run-start fold adds comes from a cached record. -/
theorem runStart_fold_mem_inv (l : List (String × SessionData)) (reg : List String)
    (x : String)
    (h : x ∈ l.foldl (fun reg p => if p.2.cacheAcrossSpecs then p.1 :: reg else reg) reg) :
    x ∈ reg ∨ ∃ p, p ∈ l ∧ p.1 = x ∧ p.2.cacheAcrossSpecs = true := by
  induction l generalizing reg with
  | nil => exact Or.inl h
  | cons p rest ih =>
    simp only [List.foldl_cons] at h
    by_cases hpc : p.2.cacheAcrossSpecs
    · simp only [hpc, if_true] at h
      rcases ih _ h with hx | ⟨q, hq, hq1, hq2⟩
      · rcases List.mem_cons.mp hx with rfl | hx2
        · exact Or.inr ⟨p, List.mem_cons_self _ _, rfl, hpc⟩
        · exact Or.inl hx2
      · exact Or.inr ⟨q, List.mem_cons_of_mem _ hq, hq1, hq2⟩
    · simp only [hpc, if_false] at h
      rcases ih _ h with hx | ⟨q, hq, hq1, hq2⟩
      · exact Or.inl hx
      · exact Or.inr ⟨q, List.mem_cons_of_mem _ hq, hq1, hq2⟩

/-- Helper: the spec boundary keeps the first binding of a cached id, in
carried-over form. -/
theorem specBoundary_lookup_cached (l : List (String × SessionData)) (id : String)
    (sd : SessionData) (h : l.lookup id = some sd) (hc : sd.cacheAcrossSpecs = true) :
    (l.filterMap
        (fun p => if p.2.cacheAcrossSpecs then some (p.1, carryOver p.2) else none)).lookup id
      = some (carryOver sd) := by
  induction l with
  | nil => simp [List.lookup] at h
  | cons p rest ih =>
    rcases p with ⟨k, v⟩
    rcases hk : (id == k) with _ | _
    · simp only [List.lookup, hk] at h
      by_cases hvc : v.cacheAcrossSpecs
      · simp only [List.filterMap_cons, hvc, if_true, List.lookup, hk]
        exact ih h
      · simp only [List.filterMap_cons, hvc, if_false]
        exact ih h
    · simp only [List.lookup, hk] at h
      obtain rfl : v = sd := by injection h
      simp only [List.filterMap_cons, hc, if_true, List.lookup, hk]

/-- Helper: the spec boundary drops an id all of whose bindings are uncached. -/
theorem specBoundary_lookup_none (l : List (String × SessionData)) (id : String)
    (h : ∀ p ∈ l, p.1 = id → p.2.cacheAcrossSpecs = false) :
    (l.filterMap
        (fun p => if p.2.cacheAcrossSpecs then some (p.1, carryOver p.2) else none)).lookup id
      = none := by
  induction l with
  | nil => rfl
  | cons p rest ih =>
    rcases p with ⟨k, v⟩
    by_cases hvc : v.cacheAcrossSpecs
    · have hk : ¬(k = id) := by
        intro hkid
        have := h (k, v) (List.mem_cons_self _ _) hkid
        simp [hvc] at this
      simp only [List.filterMap_cons, hvc, if_true, List.lookup]
      have hbeq : (id == k) = false := by
        simpa using fun hkk => hk hkk.symm
      simp only [hbeq]
      exact ih (fun q hq => h q (List.mem_cons_of_mem _ hq))
    · simp only [List.filterMap_cons, hvc, if_false]
      exact ih (fun q hq => h q (List.mem_cons_of_mem _ hq))

/-- Helper: adopting live routines does not touch the hydration flag. -/
theorem adoptLiveRoutines_hydrated (s : SessionData) (f : String) (o : SessionOptions) :
    (adoptLiveRoutines s f o).hydrated = s.hydrated := by
  simp only [adoptLiveRoutines]
  (repeat' split) <;> rfl

/-- Helper: the workflow dispatch on a hydrated record with passing validation
restores the session and never runs setup. -/
theorem runSessionFlows_restores (s : SessionData) (store : StoreGetResult)
    (cd rd : String) (run2 : ValidationRunCase) (prev2 : JsVal)
    (hh : s.hydrated = true) (h2 : validationSignalsFailure run2 prev2 = false) :
    (runSessionFlows s store false cd run2 prev2 false rd run2 prev2).outcome
        = WfOutcome.completed "restored"
    ∧ WfEvent.runSetup
        ∉ (runSessionFlows s store false cd run2 prev2 false rd run2 prev2).events := by
  have hv2 := validateSession_pass s.validate.isSome SessionStep.restore run2 prev2 h2
  constructor <;>
    simp only [runSessionFlows, resolveHydration, hh, Bool.not_true, Bool.false_eq_true,
      if_false, restoreSessionWorkflow, hv2] <;>
    (repeat' split) <;>
    simp_all

/-- Helper: with an active record and no mismatch flag set, the command reuses
the record: no error is raised, the record with adopted live routines runs the
workflows, and the finally mutated record is written back. -/
theorem sessionCommand_reuse (st : SessionsState) (id : String) (record : SessionData)
    (setupText : String) (opts : SessionOptions) (store : StoreGetResult) (cd rd : String)
    (run2 : ValidationRunCase) (prev2 : JsVal)
    (hget : getActiveSession st id = some record)
    (hflags : (hasUniqSetupDefinition record setupText
        || hasUniqValidateDefinition record opts
        || hasUniqPersistence record opts) = false) :
    sessionCommand st id (some setupText) opts store false cd run2 prev2 false rd run2 prev2
      = Except.ok
        (⟨updateAssoc
            (updateAssoc st.activeSessions id (adoptLiveRoutines record setupText opts)) id
            (runSessionFlows (adoptLiveRoutines record setupText opts) store false cd run2 prev2
              false rd run2 prev2).session,
          st.registeredSessions⟩,
         runSessionFlows (adoptLiveRoutines record setupText opts) store false cd run2 prev2
           false rd run2 prev2) := by
  simp [sessionCommand, sessionRegister, hget, hflags]

/-- C9: at run start, every session record flagged cacheAcrossSpecs from a
prior spec is re-registered into the current specs registered set, so
redefinition checks apply to it, and such a session remains restorable in a
subsequent spec within the same run: calling the command for it with the same
definition succeeds without re-running setup and completes as restored. A
session defined without the flag is not carried over: it is neither in the
active registry nor in the registered set after the boundary. -/
theorem cache_across_specs_carryover (st : SessionsState) (id : String) (sd : SessionData)
    (store : StoreGetResult) (cd rd : String) (run2 : ValidationRunCase) (prev2 : JsVal) :
    (st.activeSessions.lookup id = some sd → sd.cacheAcrossSpecs = true →
        id ∈ (runStartHandler (specBoundary st)).registeredSessions)
    ∧ (st.activeSessions.lookup id = some sd → sd.cacheAcrossSpecs = true →
        sd.hydrated = true → validationSignalsFailure run2 prev2 = false →
        ∃ st2 wf, sessionCommand (runStartHandler (specBoundary st)) id (some sd.setup)
            ⟨sd.validate, true⟩ store false cd run2 prev2 false rd run2 prev2
            = Except.ok (st2, wf)
          ∧ WfEvent.runSetup ∉ wf.events
          ∧ wf.outcome = WfOutcome.completed "restored")
    ∧ ((∀ p ∈ st.activeSessions, p.1 = id → p.2.cacheAcrossSpecs = false) →
        getActiveSession (runStartHandler (specBoundary st)) id = none
        ∧ id ∉ (runStartHandler (specBoundary st)).registeredSessions) := by
  refine ⟨?_, ?_, ?_⟩
  · intro hl hc
    have hbl := specBoundary_lookup_cached st.activeSessions id sd hl hc
    have hmem := lookup_mem _ _ _ hbl
    have hcc : (carryOver sd).cacheAcrossSpecs = true := hc
    exact runStart_fold_of_mem _ _ _ _ hmem hcc
  · intro hl hc hh h2
    have hbl := specBoundary_lookup_cached st.activeSessions id sd hl hc
    have hget : getActiveSession (runStartHandler (specBoundary st)) id
        = some (carryOver sd) := by
      simpa [getActiveSession, runStartHandler, specBoundary] using hbl
    have hflags : (hasUniqSetupDefinition (carryOver sd) sd.setup
        || hasUniqValidateDefinition (carryOver sd) ⟨sd.validate, true⟩
        || hasUniqPersistence (carryOver sd) ⟨sd.validate, true⟩) = false := by
      simp [hasUniqSetupDefinition, hasUniqValidateDefinition, hasUniqPersistence,
        carryOver, hc]
    have hcall := sessionCommand_reuse (runStartHandler (specBoundary st)) id (carryOver sd)
      sd.setup ⟨sd.validate, true⟩ store cd rd run2 prev2 hget hflags
    have hhyd : (adoptLiveRoutines (carryOver sd) sd.setup ⟨sd.validate, true⟩).hydrated
        = true := by
      rw [adoptLiveRoutines_hydrated]
      exact hh
    have hflow := runSessionFlows_restores _ store cd rd run2 prev2 hhyd h2
    exact ⟨_, _, hcall, hflow.2, hflow.1⟩
  · intro hnc
    have hbn := specBoundary_lookup_none st.activeSessions id hnc
    constructor
    · simpa [getActiveSession, runStartHandler, specBoundary] using hbn
    · intro hin
      simp only [runStartHandler, specBoundary] at hin
      rcases runStart_fold_mem_inv _ _ _ hin with hx | ⟨p, hp, hp1, hp2⟩
      · cases hx
      · rcases List.mem_filterMap.mp hp with ⟨q, hq, hqe⟩
        by_cases hqc : q.2.cacheAcrossSpecs
        · simp only [hqc, if_true] at hqe
          obtain rfl : (q.1, carryOver q.2) = p := by injection hqe
          have := hnc q hq (by simpa using hp1)
          simp [hqc] at this
        · simp [hqc] at hqe

/-- C9 witness: in the sample state the cached login session is re-registered
at run start and restorable in the next spec without setup, while the
non-cached other session is not carried over. -/
theorem cache_across_specs_carryover_witness :
    "login" ∈ (runStartHandler (specBoundary carrySampleState)).registeredSessions
    ∧ (∃ st2 wf, sessionCommand (runStartHandler (specBoundary carrySampleState))
          "login" (some "sA") ⟨some "vA", true⟩ StoreGetResult.notFound false "d"
          (ValidationRunCase.completes (ValidateReturn.value JsVal.objOther)) JsVal.undef
          false "d" (ValidationRunCase.completes (ValidateReturn.value JsVal.objOther)) JsVal.undef
          = Except.ok (st2, wf)
        ∧ WfEvent.runSetup ∉ wf.events
        ∧ wf.outcome = WfOutcome.completed "restored")
    ∧ getActiveSession (runStartHandler (specBoundary carrySampleState)) "other" = none
    ∧ "other" ∉ (runStartHandler (specBoundary carrySampleState)).registeredSessions := by
  have h := cache_across_specs_carryover carrySampleState "login"
    ⟨"login", "sA", false, some "vA", false, true, true, some "c"⟩
    StoreGetResult.notFound "d" "d"
    (ValidationRunCase.completes (ValidateReturn.value JsVal.objOther)) JsVal.undef
  have h3 := cache_across_specs_carryover carrySampleState "other"
    ⟨"other", "sB", false, none, false, false, true, some "c2"⟩
    StoreGetResult.notFound "d" "d"
    (ValidationRunCase.completes (ValidateReturn.value JsVal.objOther)) JsVal.undef
  have hnc : ∀ p ∈ carrySampleState.activeSessions, p.1 = "other"
      → p.2.cacheAcrossSpecs = false := by decide
  exact ⟨h.1 rfl rfl, h.2.1 rfl rfl rfl rfl, (h3.2.2 hnc).1, (h3.2.2 hnc).2⟩

end Sessions
